import Mathlib

/-!
Shallow embedding of the MSEDCL vendor monitor repository:

* `src/database.py` — the subscriber store (`users` table, upsert, status update);
* `src/bot.py` — the Telegram bot: `check_vendor_status` (one probe of the
  external form), `run_monitor_job` (the per-cycle dispatcher), and
  `add_beneficiary` (registration);
* `src/vendor_monitor.py` — the standalone monitor script with its own
  `check_vendor_status`.

The external world observed during one probe (which dialogs appear, what the
page shows, which interaction steps throw) is modelled as an explicit
environment record; the Python functions become pure Lean functions of that
environment.  Exceptions that a Python function lets escape are modelled with
`Except` / an `Option String` exception slot; side effects (store writes,
transport calls, file removals) are modelled as an explicit event trace.
-/

set_option autoImplicit false

/-- Python `startswith` on character lists: does the second list start with the
first? -/
def startsWithList : List Char → List Char → Bool
  | [], _ => true
  | _ :: _, [] => false
  | p :: ps, c :: cs => p == c && startsWithList ps cs

/-- Python substring containment `pat in hay` on character lists. -/
def containsList (pat : List Char) : List Char → Bool
  | [] => startsWithList pat []
  | c :: cs => startsWithList pat (c :: cs) || containsList pat cs

/-- Python substring containment `pat in s` on strings. -/
def strContainsSub (s pat : String) : Bool :=
  containsList pat.data s.data

/-- Python `str.upper()` (character-wise upper-casing). -/
def py_upper (s : String) : String :=
  ⟨s.data.map Char.toUpper⟩

/-- Python `str.strip()`: drop whitespace from both ends. -/
def py_strip (s : String) : String :=
  ⟨(s.data.dropWhile Char.isWhitespace).reverse.dropWhile Char.isWhitespace |>.reverse⟩

namespace Database

/-- One row of the `users` table created by `initialize_database` in
`src/database.py`; `last_known_status` has schema default `'Unknown'`. -/
structure UserRow where
  chat_id : Int
  beneficiary_id : String
  last_known_status : String
  is_channel_member : Bool
  snoozed_until : Option String
  deriving DecidableEq, Repr

/-- SQL `SELECT ... WHERE chat_id = ?`: the first row with the given chat id. -/
def find_user : List UserRow → Int → Option UserRow
  | [], _ => none
  | r :: rest, chat => if r.chat_id = chat then some r else find_user rest chat

/-- The row inserted for a brand-new chat id by `add_or_update_user`; the
columns not named in the INSERT take their schema defaults. -/
def new_user (chat : Int) (bid : String) : UserRow :=
  { chat_id := chat, beneficiary_id := bid, last_known_status := "Unknown",
    is_channel_member := false, snoozed_until := none }

/-- `add_or_update_user` from `src/database.py`:
`INSERT INTO users (chat_id, beneficiary_id) VALUES (?, ?)
 ON CONFLICT(chat_id) DO UPDATE SET beneficiary_id = excluded.beneficiary_id`.
A violation of the UNIQUE constraint on `beneficiary_id` (the id is already
owned by a different chat) raises `IntegrityError`, which the function catches
and turns into `False` with the table unchanged.  Returns (table, success). -/
def add_or_update_user (db : List UserRow) (chat : Int) (bid : String) :
    List UserRow × Bool :=
  match find_user db chat with
  | some _ =>
    if db.any (fun r => r.beneficiary_id == bid && r.chat_id != chat) then (db, false)
    else
      (db.map (fun r => if r.chat_id = chat then { r with beneficiary_id := bid } else r),
       true)
  | none =>
    if db.any (fun r => r.beneficiary_id == bid) then (db, false)
    else (db ++ [new_user chat bid], true)

/-- `update_user_status` from `src/database.py`:
`UPDATE users SET last_known_status = ? WHERE chat_id = ?`. -/
def update_user_status (db : List UserRow) (chat : Int) (status : String) :
    List UserRow :=
  db.map (fun r => if r.chat_id = chat then { r with last_known_status := status } else r)

end Database

/-- The quota-exhaustion phrase both evidence channels look for
(`"All Empanelled Vendors Quota Exceeded"` in both source files). -/
def QUOTA_PHRASE : String := "All Empanelled Vendors Quota Exceeded"

/-- The external world during one probe of the form.  Fields describe what the
target site and the local machinery do, independently of which program reads
them:

* `launchError` — browser launch / page creation raises (in `src/bot.py` these
  calls sit outside the `try`, so such an error escapes `check_vendor_status`);
* `navError` — one of the navigation/interaction steps (goto, fill, click,
  readiness wait) raises, with the exception text;
* `dialogMessage` — a modal dialog appears during the probe with this message
  (the registered dialog handler records whether it contains `QUOTA_PHRASE`);
* `quotaMsg` — the on-page `quotaMsg` element becomes visible with this text
  (read only by `src/vendor_monitor.py`; `src/bot.py` has no locator for it);
* `vendorOptions` — the `#VendorCode` control becomes visible with this many
  options (`none` = it never appears and the bounded wait times out);
* `availShotError` — the expand/screenshot steps of the available branch raise;
* `errorShotFails` — the diagnostic screenshot in the error handler fails. -/
structure ProbeEnv where
  launchError : Option String
  navError : Option String
  dialogMessage : Option String
  quotaMsg : Option String
  vendorOptions : Option Nat
  availShotError : Option String
  errorShotFails : Bool
  deriving DecidableEq, Repr

/-- The `dialog_found` flag set by the dialog listener (`handle_dialog` in both
source files): a dialog appeared and its message contains `QUOTA_PHRASE`. -/
def dialog_quota_found (env : ProbeEnv) : Bool :=
  match env.dialogMessage with
  | some m => strContainsSub m QUOTA_PHRASE
  | none => false

/-- The `page_quota_found` flag of `src/vendor_monitor.py`: the on-page
`quotaMsg` element is visible and its text contains `QUOTA_PHRASE`. -/
def page_quota_found (env : ProbeEnv) : Bool :=
  match env.quotaMsg with
  | some t => strContainsSub t QUOTA_PHRASE
  | none => false

namespace Bot

/-- `check_vendor_status` from `src/bot.py`.  Returns
`.ok (status_string, screenshot_path_or_none)` when the Python function
returns, `.error e` when an exception escapes it (browser launch and page
creation are outside the `try`).  Faithful points:

* a navigation/interaction failure is caught by the outer handler, which sets
  `status = "Error: " ++ e` and assigns `screenshot_path` *before* attempting
  the diagnostic screenshot, so the returned pair is the same whether or not
  that screenshot succeeds (`errorShotFails` is never consulted);
* `dialog_found` short-circuits to `"Not Available"` without consulting the
  dropdown;
* a `TimeoutError` on the dropdown wait (`vendorOptions = none`) is caught by
  the inner handler and resolved as `"Not Available"`;
* a non-timeout failure in the expand/screenshot steps of the available branch
  propagates to the outer handler, overwriting `"Available"` with the error;
* the on-page `quotaMsg` element is never read. -/
def check_vendor_status (env : ProbeEnv) (beneficiary_id : String) :
    Except String (String × Option String) :=
  match env.launchError with
  | some e => .error e
  | none =>
    match env.navError with
    | some e => .ok ("Error: " ++ e, some ("error_" ++ beneficiary_id ++ ".png"))
    | none =>
      if dialog_quota_found env then
        .ok ("Not Available", none)
      else
        match env.vendorOptions with
        | none => .ok ("Not Available", none)
        | some option_count =>
          if option_count > 1 then
            match env.availShotError with
            | some e => .ok ("Error: " ++ e, some ("error_" ++ beneficiary_id ++ ".png"))
            | none => .ok ("Available", some ("screenshot_" ++ beneficiary_id ++ ".png"))
          else
            .ok ("Not Available", none)

end Bot

namespace VendorMonitor

/-- Which message branch `check_vendor_status` of `src/vendor_monitor.py`
takes: the quota-exceeded message, the vendor-available ("ACTION REQUIRED")
message, or the error handler with the original exception text. -/
inductive Outcome where
  | quotaExceeded
  | actionRequired
  | checkError (detail : String)
  deriving DecidableEq, Repr

/-- Side effects of one `check_vendor_status` call in `src/vendor_monitor.py`. -/
inductive Ev where
  | expanded (n : Nat)
  | photoSent (path : String)
  | textSent
  deriving DecidableEq, Repr

/-- `check_vendor_status` from `src/vendor_monitor.py` (the per-check body;
the dialog listener is installed once by `main` and its flag is reset at the
start of each check).  Faithful points:

* quota evidence is the disjunction of the dialog flag and the on-page
  `quotaMsg` element (`status['quota_exceeded_found'] or page_quota_found`);
  on quota evidence only the message is printed — the notification call on
  that branch is commented out in the source;
* otherwise the vendor-available branch runs regardless of the option count:
  the count only decides whether the dropdown is expanded for the screenshot
  (a dropdown failure is swallowed by the inner handler);
* a screenshot failure on the available branch, like a navigation failure,
  falls to the outer handler, which tries an error screenshot + photo
  notification and falls back to a text notification if that also fails. -/
def check_vendor_status (env : ProbeEnv) : Outcome × List Ev :=
  match env.navError with
  | some e =>
    if env.errorShotFails then (.checkError e, [.textSent])
    else (.checkError e, [.photoSent "error_screenshot.png"])
  | none =>
    if dialog_quota_found env || page_quota_found env then
      (.quotaExceeded, [])
    else
      let expandEvs : List Ev :=
        match env.vendorOptions with
        | some n => if n > 1 then [.expanded n] else []
        | none => []
      match env.availShotError with
      | some e =>
        if env.errorShotFails then (.checkError e, expandEvs ++ [.textSent])
        else (.checkError e, expandEvs ++ [.photoSent "error_screenshot.png"])
      | none => (.actionRequired, expandEvs ++ [.photoSent "vendor_available.png"])

end VendorMonitor

namespace Bot

/-- The world one iteration of `run_monitor_job`'s user loop interacts with:
the probe environment plus whether the transport call (`open` + `send_photo`,
or `send_message`) raises and whether `os.remove` on the artifact raises. -/
structure UserCycleEnv where
  probe : ProbeEnv
  sendError : Option String
  removeError : Option String
  deriving DecidableEq, Repr

/-- Externally visible actions of `run_monitor_job`, in order: the probe call
for a user, the `database.update_user_status` write, the transport call
(recorded when the call begins; `UserCycleEnv.sendError` says whether it then
raises), and the `os.remove` cleanup (likewise recorded when attempted). -/
inductive Event where
  | probe (chat : Int) (beneficiary_id : String)
  | storeWrite (chat : Int) (status : String)
  | sendPhoto (chat : Int) (caption : String) (path : String)
  | sendText (chat : Int) (message : String)
  | removeFile (path : String)
  deriving DecidableEq, Repr

/-- The message composed by `run_monitor_job` (`src/bot.py` lines 115-121);
`now` is the IST timestamp string. -/
def format_message (status beneficiary_id now : String) : String :=
  if status == "Available" then
    "✅ Status for <code>" ++ beneficiary_id ++ "</code> at " ++ now
      ++ ": <b>VENDOR AVAILABLE!</b>"
  else if status == "Not Available" then
    "❌ Status for <code>" ++ beneficiary_id ++ "</code> at " ++ now
      ++ ": Vendor Not Available."
  else
    "⚠️ Error checking <code>" ++ beneficiary_id ++ "</code> at " ++ now
      ++ ": " ++ status

/-- The body of `run_monitor_job`'s `for user in users` loop for one user
(`src/bot.py` lines 101-145).  `user` is the snapshot row from
`get_all_users()`; `db` is the live table.  Returns the table after the
iteration, the event trace, and the exception that escapes the iteration, if
any.  Faithful points:

* an exception escaping `check_vendor_status` propagates — the loop body has
  no handler;
* on `current_status != last_status` the `update_user_status` write happens
  first, then the message is composed and the transport called;
* with a screenshot the photo send is followed by `os.remove`; neither the
  transport call nor the removal is wrapped in a handler, so a failure of
  either escapes the loop;
* on an unchanged status nothing but the probe happens. -/
def dispatch_user (db : List Database.UserRow) (user : Database.UserRow)
    (env : UserCycleEnv) (now : String) :
    List Database.UserRow × List Event × Option String :=
  let probeEv := Event.probe user.chat_id user.beneficiary_id
  match check_vendor_status env.probe user.beneficiary_id with
  | .error e => (db, [probeEv], some e)
  | .ok (current_status, screenshot) =>
    if current_status = user.last_known_status then
      (db, [probeEv], none)
    else
      let db' := Database.update_user_status db user.chat_id current_status
      let message := format_message current_status user.beneficiary_id now
      match screenshot with
      | some path =>
        let evs := [probeEv, Event.storeWrite user.chat_id current_status,
                    Event.sendPhoto user.chat_id message path]
        match env.sendError with
        | some e => (db', evs, some e)
        | none =>
          match env.removeError with
          | some e => (db', evs ++ [Event.removeFile path], some e)
          | none => (db', evs ++ [Event.removeFile path], none)
      | none =>
        let evs := [probeEv, Event.storeWrite user.chat_id current_status,
                    Event.sendText user.chat_id message]
        match env.sendError with
        | some e => (db', evs, some e)
        | none => (db', evs, none)

/-- `run_monitor_job` (`src/bot.py`): iterate `dispatch_user` over the snapshot
of users, each paired with its cycle environment.  An exception escaping one
iteration propagates out of the whole job (the loop has no handler), so the
remaining users of that cycle are not processed; the scheduler's job queue
catches it outside this function. -/
def run_monitor_job :
    List (Database.UserRow × UserCycleEnv) → List Database.UserRow → String →
    List Database.UserRow × List Event × Option String
  | [], db, _ => (db, [], none)
  | (user, env) :: rest, db, now =>
    let r := dispatch_user db user env now
    match r.2.2 with
    | some e => (r.1, r.2.1, some e)
    | none =>
      let r' := run_monitor_job rest r.1 now
      (r'.1, r.2.1 ++ r'.2.1, r'.2.2)

/-- Replies of the `/add` handler `add_beneficiary` (`src/bot.py`), one per
`reply_text` branch. -/
inductive Reply where
  | usage
  | invalidFormat
  | success (beneficiary_id : String)
  | conflict
  deriving DecidableEq, Repr

/-- The format check of `add_beneficiary` (`src/bot.py` line 166):
`beneficiary_id.startswith("MT") and len(beneficiary_id) == 15`. -/
def valid_format (beneficiary_id : String) : Bool :=
  startsWithList "MT".data beneficiary_id.data && beneficiary_id.data.length == 15

/-- `add_beneficiary` (`src/bot.py` lines 158-180): normalise the first
argument (`.strip().upper()`), validate the format, and only then call the
store; schedule the one-shot probe (`job_queue.run_once`) only on a successful
store upsert.  Returns (table, reply, probe_scheduled). -/
def add_beneficiary (db : List Database.UserRow) (chat : Int)
    (args : List String) : List Database.UserRow × Reply × Bool :=
  match args with
  | [] => (db, Reply.usage, false)
  | arg :: _ =>
    let beneficiary_id := py_upper (py_strip arg)
    if !(valid_format beneficiary_id) then (db, Reply.invalidFormat, false)
    else
      match Database.add_or_update_user db chat beneficiary_id with
      | (db', true) => (db', Reply.success beneficiary_id, true)
      | (db', false) => (db', Reply.conflict, false)

/-- Recogniser for transport-call events. -/
def isNotify : Event → Bool
  | .sendPhoto .. => true
  | .sendText .. => true
  | _ => false

/-- Recogniser for store-write events. -/
def isStoreWrite : Event → Bool
  | .storeWrite .. => true
  | _ => false

/-- Number of transport calls in a trace. -/
def notifyCount (evs : List Event) : Nat :=
  (evs.filter isNotify).length

/-- Helper for `writeBeforeNotify`: scan the trace remembering whether a store
write has been seen; every transport call must come after one. -/
def writesSeenBeforeNotifies : Bool → List Event → Bool
  | _, [] => true
  | seen, e :: rest =>
    if isNotify e then seen && writesSeenBeforeNotifies seen rest
    else writesSeenBeforeNotifies (seen || isStoreWrite e) rest

/-- Every transport call in the trace is strictly preceded by a store write. -/
def writeBeforeNotify (evs : List Event) : Bool :=
  writesSeenBeforeNotifies false evs

/-- Number of probe calls in a trace: how many subscribers the cycle reached. -/
def probeCount (evs : List Event) : Nat :=
  (evs.filter (fun e => match e with | .probe .. => true | _ => false)).length

end Bot

/-! Helper lemmas about the embedding, shared by the claim theorems below. -/

lemma startsWithList_self (l : List Char) : startsWithList l l = true := by
  induction l with
  | nil => rfl
  | cons c cs ih => simp [startsWithList, ih]

lemma containsList_append_self (pre pat : List Char) :
    containsList pat (pre ++ pat) = true := by
  induction pre with
  | nil =>
    cases pat with
    | nil => rfl
    | cons c cs => simp [containsList, startsWithList_self]
  | cons c cs ih => simp [containsList, ih]

lemma strContainsSub_append (p e : String) : strContainsSub (p ++ e) e = true := by
  unfold strContainsSub
  rw [String.data_append]
  exact containsList_append_self p.data e.data

lemma err_append_ne (e s : String) (hs : s.data.head? ≠ some 'E') :
    ("Error: " ++ e) ≠ s := by
  intro h
  apply hs
  have h2 : "Error: ".data ++ e.data = s.data := by rw [← String.data_append, h]
  rw [← h2]
  rfl

lemma find_user_update_user_status (db : List Database.UserRow) (chat : Int)
    (s : String) :
    Database.find_user (Database.update_user_status db chat s) chat
      = (Database.find_user db chat).map (fun r => { r with last_known_status := s }) := by
  induction db with
  | nil => rfl
  | cons r rest ih =>
    by_cases h : r.chat_id = chat
    · simp [Database.update_user_status, Database.find_user, h] at ih ⊢
    · simp only [Database.update_user_status, List.map_cons, if_neg h] at ih ⊢
      rw [Database.find_user, if_neg h, Database.find_user, if_neg h, ih]

lemma find_user_map_update_bid (db : List Database.UserRow) (chat : Int)
    (bid : String) :
    Database.find_user
        (db.map (fun r => if r.chat_id = chat then { r with beneficiary_id := bid } else r))
        chat
      = (Database.find_user db chat).map (fun r => { r with beneficiary_id := bid }) := by
  induction db with
  | nil => rfl
  | cons r rest ih =>
    by_cases h : r.chat_id = chat
    · simp [Database.find_user, h]
    · simp only [List.map_cons, if_neg h]
      rw [Database.find_user, if_neg h, Database.find_user, if_neg h, ih]

/-! Claim C1. -/

/-- Probe in which the page shows the on-page quota element (no dialog) while
the vendor dropdown is visible with three options. -/
def c1Env : ProbeEnv :=
  { launchError := none, navError := none, dialogMessage := none,
    quotaMsg := some "All Empanelled Vendors Quota Exceeded",
    vendorOptions := some 3, availShotError := none, errorShotFails := false }

/-- C1 is false of `src/bot.py`: its `check_vendor_status` never consults the
on-page `quotaMsg` element, so a probe with quota-exceeded evidence from the
DOM channel alone (no dialog) and a three-option dropdown resolves to
`"Available"`, not `"Not Available"` — the DOM-channel evidence is overridden
by the selection control, contradicting the claimed channel equivalence. -/
theorem c1_counterexample :
    page_quota_found c1Env = true ∧
    dialog_quota_found c1Env = false ∧
    Bot.check_vendor_status c1Env "MT4420500385456"
      = .ok ("Available", some "screenshot_MT4420500385456.png") ∧
    ("Available" : String) ≠ "Not Available" := by
  refine ⟨by decide, rfl, rfl, by decide⟩

/-- C1 (amended): quota-exceeded evidence from the dialog channel is
authoritative in `src/bot.py` — it resolves to `"Not Available"` and is never
overridden by a populated selection control; and in `src/vendor_monitor.py`
quota-exceeded evidence from EITHER channel (dialog or on-page element) takes
the quota-exceeded branch, never overridden by the dropdown.  Only
`src/vendor_monitor.py` treats the two channels as equivalent inputs;
`src/bot.py` consults the dialog channel alone. -/
theorem c1_amended :
    (∀ (env : ProbeEnv) (bid : String),
        env.launchError = none → env.navError = none →
        dialog_quota_found env = true →
        Bot.check_vendor_status env bid = .ok ("Not Available", none)) ∧
    (∀ env : ProbeEnv, env.navError = none →
        (dialog_quota_found env || page_quota_found env) = true →
        VendorMonitor.check_vendor_status env
          = (VendorMonitor.Outcome.quotaExceeded, [])) := by
  constructor
  · intro env bid h1 h2 h3
    simp [Bot.check_vendor_status, h1, h2, h3]
  · intro env h1 h2
    simp [VendorMonitor.check_vendor_status, h1, h2]

/-- Probe with dialog-channel quota evidence only, dropdown populated. -/
def c1WitEnvA : ProbeEnv :=
  { launchError := none, navError := none,
    dialogMessage := some "All Empanelled Vendors Quota Exceeded",
    quotaMsg := none, vendorOptions := some 5, availShotError := none,
    errorShotFails := false }

/-- Probe with DOM-channel quota evidence only, dropdown populated. -/
def c1WitEnvB : ProbeEnv :=
  { launchError := none, navError := none, dialogMessage := none,
    quotaMsg := some "All Empanelled Vendors Quota Exceeded",
    vendorOptions := some 5, availShotError := none, errorShotFails := false }

/-- Witness for `c1_amended` at concrete probes. -/
theorem c1_witness :
    Bot.check_vendor_status c1WitEnvA "MT4420500385456"
      = .ok ("Not Available", none) ∧
    VendorMonitor.check_vendor_status c1WitEnvB
      = (VendorMonitor.Outcome.quotaExceeded, []) :=
  ⟨c1_amended.1 c1WitEnvA "MT4420500385456" rfl rfl (by decide),
   c1_amended.2 c1WitEnvB rfl (by decide)⟩

/-! Claim C5. -/

/-- Probe with no quota evidence on either channel and a visible dropdown with
exactly one option. -/
def c5Env : ProbeEnv :=
  { launchError := none, navError := none, dialogMessage := none,
    quotaMsg := none, vendorOptions := some 1, availShotError := none,
    errorShotFails := false }

/-- Probe identical to `c5Env` but with three options. -/
def c5AvailEnv : ProbeEnv :=
  { launchError := none, navError := none, dialogMessage := none,
    quotaMsg := none, vendorOptions := some 3, availShotError := none,
    errorShotFails := false }

/-- C5 is false of `src/vendor_monitor.py`: with no quota evidence and a
one-option dropdown, its `check_vendor_status` still takes the
vendor-available ("ACTION REQUIRED") branch and sends the availability photo
notification — absence of quota evidence, not option count > 1, selects the
branch there. -/
theorem c5_counterexample :
    dialog_quota_found c5Env = false ∧
    page_quota_found c5Env = false ∧
    VendorMonitor.check_vendor_status c5Env
      = (VendorMonitor.Outcome.actionRequired,
         [VendorMonitor.Ev.photoSent "vendor_available.png"]) ∧
    VendorMonitor.Outcome.actionRequired ≠ VendorMonitor.Outcome.quotaExceeded := by
  refine ⟨rfl, rfl, by decide, by decide⟩

/-- C5 (amended): in `src/bot.py` the boundary holds — with no dialog quota
evidence a visible one-option dropdown resolves to `"Not Available"`, and
`"Available"` is resolved only when the option count exceeds one; in
`src/vendor_monitor.py`, however, any probe without quota evidence takes the
vendor-available branch regardless of the option count (the count only
controls whether the dropdown is expanded for the screenshot). -/
theorem c5_amended :
    (∀ (env : ProbeEnv) (bid : String),
        env.launchError = none → env.navError = none →
        dialog_quota_found env = false →
        env.vendorOptions = some 1 →
        Bot.check_vendor_status env bid = .ok ("Not Available", none)) ∧
    (∀ (env : ProbeEnv) (bid : String) (shot : Option String),
        Bot.check_vendor_status env bid = .ok ("Available", shot) →
        ∃ n, env.vendorOptions = some n ∧ 1 < n) ∧
    (∀ env : ProbeEnv,
        env.navError = none → env.availShotError = none →
        dialog_quota_found env = false → page_quota_found env = false →
        (VendorMonitor.check_vendor_status env).1
          = VendorMonitor.Outcome.actionRequired) := by
  refine ⟨?_, ?_, ?_⟩
  · intro env bid h1 h2 h3 h4
    simp [Bot.check_vendor_status, h1, h2, h3, h4]
  · intro env bid shot h
    cases h1 : env.launchError with
    | some e => simp [Bot.check_vendor_status, h1] at h
    | none =>
      cases h2 : env.navError with
      | some e =>
        simp [Bot.check_vendor_status, h1, h2] at h
        exact absurd h.1 (err_append_ne e "Available" (by decide))
      | none =>
        cases h3 : dialog_quota_found env with
        | true => simp [Bot.check_vendor_status, h1, h2, h3] at h
        | false =>
          cases h4 : env.vendorOptions with
          | none => simp [Bot.check_vendor_status, h1, h2, h3, h4] at h
          | some n =>
            by_cases h5 : n > 1
            · exact ⟨n, rfl, h5⟩
            · simp [Bot.check_vendor_status, h1, h2, h3, h4, h5] at h
  · intro env h1 h2 h3 h4
    simp [VendorMonitor.check_vendor_status, h1, h2, h3, h4]

/-- Witness for `c5_amended` at concrete probes. -/
theorem c5_witness :
    Bot.check_vendor_status c5Env "MT4420500385456" = .ok ("Not Available", none) ∧
    (∃ n, c5AvailEnv.vendorOptions = some n ∧ 1 < n) ∧
    (VendorMonitor.check_vendor_status c5Env).1
      = VendorMonitor.Outcome.actionRequired :=
  ⟨c5_amended.1 c5Env "MT4420500385456" rfl rfl rfl rfl,
   c5_amended.2.1 c5AvailEnv "MT4420500385456"
     (some "screenshot_MT4420500385456.png") rfl,
   c5_amended.2.2 c5Env rfl rfl rfl rfl⟩

/-! Claim C2. -/

/-- C2: when the freshly resolved status differs from the subscriber's
`last_known_status`, the dispatcher makes exactly one transport call, every
transport call is strictly preceded by the `update_user_status` store write,
and the store row already holds the new status after the iteration — in
`src/bot.py` the write (line 112) precedes the send (lines 128-143). -/
theorem c2_change_notifies_once_store_first
    (db : List Database.UserRow) (user : Database.UserRow)
    (env : Bot.UserCycleEnv) (now current : String) (shot : Option String)
    (hprobe : Bot.check_vendor_status env.probe user.beneficiary_id
      = .ok (current, shot))
    (hchange : current ≠ user.last_known_status)
    (hfind : Database.find_user db user.chat_id = some user) :
    Bot.notifyCount (Bot.dispatch_user db user env now).2.1 = 1 ∧
    Bot.writeBeforeNotify (Bot.dispatch_user db user env now).2.1 = true ∧
    Database.find_user (Bot.dispatch_user db user env now).1 user.chat_id
      = some { user with last_known_status := current } := by
  cases shot <;> cases hs : env.sendError <;> cases hr : env.removeError <;>
    simp [Bot.dispatch_user, hprobe, hchange, hs, hr, Bot.notifyCount,
      Bot.writeBeforeNotify, Bot.writesSeenBeforeNotifies, Bot.isNotify,
      Bot.isStoreWrite, find_user_update_user_status, hfind, List.filter]

/-- Subscriber whose status is about to change. -/
def c2User : Database.UserRow :=
  { chat_id := 1, beneficiary_id := "MT4420500385456",
    last_known_status := "Unknown", is_channel_member := false,
    snoozed_until := none }

/-- Cycle in which the probe finds an empty dropdown and all plumbing works. -/
def c2Env : Bot.UserCycleEnv :=
  { probe := { launchError := none, navError := none, dialogMessage := none,
               quotaMsg := none, vendorOptions := some 0, availShotError := none,
               errorShotFails := false },
    sendError := none, removeError := none }

/-- Witness for `c2_change_notifies_once_store_first` at a concrete cycle. -/
theorem c2_witness :
    Bot.notifyCount (Bot.dispatch_user [c2User] c2User c2Env "t").2.1 = 1 ∧
    Bot.writeBeforeNotify (Bot.dispatch_user [c2User] c2User c2Env "t").2.1 = true ∧
    Database.find_user (Bot.dispatch_user [c2User] c2User c2Env "t").1 1
      = some { c2User with last_known_status := "Not Available" } :=
  c2_change_notifies_once_store_first [c2User] c2User c2Env "t"
    "Not Available" none rfl (by decide) rfl

/-! Claim C3. -/

/-- C3: when the freshly resolved status equals the subscriber's
`last_known_status`, the iteration does nothing: the table is returned
unchanged, the trace holds only the probe call (no store write, no transport
call), and no exception is raised. -/
theorem c3_steady_state_no_action
    (db : List Database.UserRow) (user : Database.UserRow)
    (env : Bot.UserCycleEnv) (now current : String) (shot : Option String)
    (hprobe : Bot.check_vendor_status env.probe user.beneficiary_id
      = .ok (current, shot))
    (hsame : current = user.last_known_status) :
    Bot.dispatch_user db user env now
      = (db, [Bot.Event.probe user.chat_id user.beneficiary_id], none) := by
  simp [Bot.dispatch_user, hprobe, hsame]

/-- Subscriber already at the freshly resolved status. -/
def c3User : Database.UserRow :=
  { chat_id := 2, beneficiary_id := "MT4420500385456",
    last_known_status := "Not Available", is_channel_member := false,
    snoozed_until := none }

/-- Witness for `c3_steady_state_no_action` at a concrete cycle. -/
theorem c3_witness :
    Bot.dispatch_user [c3User] c3User c2Env "t"
      = ([c3User], [Bot.Event.probe 2 "MT4420500385456"], none) :=
  c3_steady_state_no_action [c3User] c3User c2Env "t" "Not Available" none rfl rfl

/-! Claim C6. -/

/-- C6: a probe whose navigation/interaction raises resolves to
`"Error: " ++ detail` with the detail containing the underlying failure text;
the error handler assigns the diagnostic screenshot path before attempting the
capture, so the probe's return value is the same whether or not the diagnostic
screenshot succeeds (`errorShotFails` is irrelevant) — the screenshot failure
never masks the original error. -/
theorem c6_error_path (env : ProbeEnv) (bid e : String) (b : Bool)
    (hl : env.launchError = none) (hn : env.navError = some e) :
    Bot.check_vendor_status { env with errorShotFails := b } bid
      = .ok ("Error: " ++ e, some ("error_" ++ bid ++ ".png")) ∧
    strContainsSub ("Error: " ++ e) e = true :=
  ⟨by simp [Bot.check_vendor_status, hl, hn],
   strContainsSub_append "Error: " e⟩

/-- Probe whose page navigation times out. -/
def c6Env : ProbeEnv :=
  { launchError := none, navError := some "net::ERR_TIMED_OUT",
    dialogMessage := none, quotaMsg := none, vendorOptions := none,
    availShotError := none, errorShotFails := false }

/-- Witness for `c6_error_path` at a concrete probe whose diagnostic
screenshot also fails. -/
theorem c6_witness :
    Bot.check_vendor_status { c6Env with errorShotFails := true } "MT4420500385456"
      = .ok ("Error: " ++ "net::ERR_TIMED_OUT",
             some ("error_" ++ "MT4420500385456" ++ ".png")) ∧
    strContainsSub ("Error: " ++ "net::ERR_TIMED_OUT") "net::ERR_TIMED_OUT" = true :=
  c6_error_path c6Env "MT4420500385456" "net::ERR_TIMED_OUT" true rfl rfl

/-! Claim C4. -/

lemma check_status_not_unknown (env : ProbeEnv) (bid status : String)
    (shot : Option String)
    (h : Bot.check_vendor_status env bid = .ok (status, shot)) :
    status ≠ "Unknown" := by
  cases h1 : env.launchError with
  | some e => simp [Bot.check_vendor_status, h1] at h
  | none =>
    cases h2 : env.navError with
    | some e =>
      simp [Bot.check_vendor_status, h1, h2] at h
      rw [← h.1]
      exact err_append_ne e "Unknown" (by decide)
    | none =>
      cases h3 : dialog_quota_found env with
      | true =>
        simp [Bot.check_vendor_status, h1, h2, h3] at h
        rw [← h.1]; decide
      | false =>
        cases h4 : env.vendorOptions with
        | none =>
          simp [Bot.check_vendor_status, h1, h2, h3, h4] at h
          rw [← h.1]; decide
        | some n =>
          by_cases h5 : n > 1
          · cases h6 : env.availShotError with
            | some e =>
              simp [Bot.check_vendor_status, h1, h2, h3, h4, h5, h6] at h
              rw [← h.1]
              exact err_append_ne e "Unknown" (by decide)
            | none =>
              simp [Bot.check_vendor_status, h1, h2, h3, h4, h5, h6] at h
              rw [← h.1]; decide
          · simp [Bot.check_vendor_status, h1, h2, h3, h4, h5] at h
            rw [← h.1]; decide

/-- C4: a completed probe never resolves to `"Unknown"` — every `.ok` return
of `check_vendor_status` carries `"Available"`, `"Not Available"` or an
`"Error: ..."` string — and every store write the dispatcher performs writes
such a completed-probe status, so a subscriber's `last_known_status` never
returns to `"Unknown"` after its first completed probe. -/
theorem c4_unknown_never_reentered :
    (∀ (env : ProbeEnv) (bid status : String) (shot : Option String),
        Bot.check_vendor_status env bid = .ok (status, shot) →
        status ≠ "Unknown") ∧
    (∀ (db : List Database.UserRow) (user : Database.UserRow)
        (env : Bot.UserCycleEnv) (now : String) (chat : Int) (status : String),
        Bot.Event.storeWrite chat status ∈ (Bot.dispatch_user db user env now).2.1 →
        status ≠ "Unknown") := by
  constructor
  · exact check_status_not_unknown
  · intro db user env now chat status hmem
    cases hp : Bot.check_vendor_status env.probe user.beneficiary_id with
    | error e => simp [Bot.dispatch_user, hp] at hmem
    | ok v =>
      obtain ⟨current, shot⟩ := v
      by_cases hc : current = user.last_known_status
      · simp [Bot.dispatch_user, hp, hc] at hmem
      · have hcur : status = current := by
          cases shot with
          | none =>
            cases hs : env.sendError <;>
              simp [Bot.dispatch_user, hp, hc, hs] at hmem <;>
              exact hmem.2
          | some path =>
            cases hs : env.sendError <;> cases hr : env.removeError <;>
              simp [Bot.dispatch_user, hp, hc, hs, hr] at hmem <;>
              exact hmem.2
        rw [hcur]
        exact check_status_not_unknown env.probe user.beneficiary_id current shot hp

/-- Witness for `c4_unknown_never_reentered`: a concrete completed probe and a
concrete store write, both away from `"Unknown"`. -/
theorem c4_witness :
    ("Not Available" : String) ≠ "Unknown" ∧ ("Available" : String) ≠ "Unknown" :=
  ⟨c4_unknown_never_reentered.1 c2Env.probe "MT4420500385456" "Not Available" none rfl,
   c4_unknown_never_reentered.2 [c2User] c2User
     { probe := { launchError := none, navError := none, dialogMessage := none,
                  quotaMsg := none, vendorOptions := some 3, availShotError := none,
                  errorShotFails := false },
       sendError := none, removeError := none } "t" 1 "Available" (by decide)⟩

/-! Claim C7. -/

lemma check_no_raise_of_launch_none (env : ProbeEnv) (bid e : String)
    (h : env.launchError = none) :
    Bot.check_vendor_status env bid ≠ .error e := by
  intro hp
  cases hn : env.navError <;> cases hd : dialog_quota_found env <;>
    cases hv : env.vendorOptions <;> cases ha : env.availShotError <;>
    simp [Bot.check_vendor_status, h, hn, hd, hv, ha] at hp <;>
    (split at hp <;> simp at hp)

lemma dispatch_user_healthy (db : List Database.UserRow)
    (user : Database.UserRow) (env : Bot.UserCycleEnv) (now : String)
    (h1 : env.probe.launchError = none) (h2 : env.sendError = none)
    (h3 : env.removeError = none) :
    (Bot.dispatch_user db user env now).2.2 = none ∧
    Bot.probeCount (Bot.dispatch_user db user env now).2.1 = 1 := by
  cases hp : Bot.check_vendor_status env.probe user.beneficiary_id with
  | error e =>
    exact absurd hp (check_no_raise_of_launch_none env.probe user.beneficiary_id e h1)
  | ok v =>
    obtain ⟨current, shot⟩ := v
    by_cases hc : current = user.last_known_status
    · simp [Bot.dispatch_user, hp, hc, Bot.probeCount, List.filter]
    · cases shot <;>
        simp [Bot.dispatch_user, hp, hc, h2, h3, Bot.probeCount, List.filter]

lemma probeCount_append (a b : List Bot.Event) :
    Bot.probeCount (a ++ b) = Bot.probeCount a + Bot.probeCount b := by
  simp [Bot.probeCount, List.filter_append]

/-- Probe environment in which the search succeeds and vendors are found. -/
def c7ProbeOk : ProbeEnv :=
  { launchError := none, navError := none, dialogMessage := none,
    quotaMsg := none, vendorOptions := some 3, availShotError := none,
    errorShotFails := false }

/-- Cycle environment whose transport send raises. -/
def c7Env1 : Bot.UserCycleEnv :=
  { probe := c7ProbeOk, sendError := some "telegram send failed",
    removeError := none }

/-- Healthy cycle environment. -/
def c7Env2 : Bot.UserCycleEnv :=
  { probe := c7ProbeOk, sendError := none, removeError := none }

/-- First subscriber of the two-subscriber cycle. -/
def c7User1 : Database.UserRow :=
  { chat_id := 1, beneficiary_id := "MT4420500385456",
    last_known_status := "Unknown", is_channel_member := false,
    snoozed_until := none }

/-- Second subscriber of the two-subscriber cycle. -/
def c7User2 : Database.UserRow :=
  { chat_id := 2, beneficiary_id := "MT4420500385457",
    last_known_status := "Unknown", is_channel_member := false,
    snoozed_until := none }

/-- The two-subscriber cycle whose first notification raises. -/
def c7Pairs : List (Database.UserRow × Bot.UserCycleEnv) :=
  [(c7User1, c7Env1), (c7User2, c7Env2)]

/-- C7 is false of `src/bot.py`: the user loop of `run_monitor_job` has no
exception handler, so when notifying the first of two subscribers raises, the
exception escapes the job and the second subscriber is never probed in that
cycle — the failure is not scoped to the one subscriber. -/
theorem c7_counterexample :
    c7Pairs.length = 2 ∧
    Bot.probeCount (Bot.run_monitor_job c7Pairs [c7User1, c7User2] "t").2.1 = 1 ∧
    Bot.Event.probe 2 "MT4420500385457"
      ∉ (Bot.run_monitor_job c7Pairs [c7User1, c7User2] "t").2.1 ∧
    (Bot.run_monitor_job c7Pairs [c7User1, c7User2] "t").2.2
      = some "telegram send failed" := by
  decide

/-- C7 (amended): a failure inside the probe's navigation/interaction phase is
absorbed into an `"Error: ..."` status and is scoped to its subscriber — with
browser launch, transport and file removal healthy, every subscriber of the
cycle is probed and no exception escapes, whatever the probes observe; but (as
`c7_counterexample` shows) an exception from the transport call, the artifact
removal or the browser launch escapes `run_monitor_job` and aborts the rest of
the cycle, which only the next scheduled cycle resumes. -/
theorem c7_amended (pairs : List (Database.UserRow × Bot.UserCycleEnv))
    (db : List Database.UserRow) (now : String)
    (h : ∀ p ∈ pairs, p.2.probe.launchError = none ∧ p.2.sendError = none ∧
      p.2.removeError = none) :
    Bot.probeCount (Bot.run_monitor_job pairs db now).2.1 = pairs.length ∧
    (Bot.run_monitor_job pairs db now).2.2 = none := by
  induction pairs generalizing db with
  | nil => simp [Bot.run_monitor_job, Bot.probeCount]
  | cons p rest ih =>
    obtain ⟨user, env⟩ := p
    obtain ⟨h1, h2, h3⟩ := h _ (List.mem_cons_self _ _)
    have hd := dispatch_user_healthy db user env now h1 h2 h3
    have hrest := ih (Bot.dispatch_user db user env now).1
      (fun q hq => h q (List.mem_cons_of_mem _ hq))
    simp only [Bot.run_monitor_job, hd.1]
    refine ⟨?_, hrest.2⟩
    rw [probeCount_append, hd.2, hrest.1, List.length_cons]
    omega

/-- Cycle environment whose probe navigation raises but whose plumbing works. -/
def c7wEnv : Bot.UserCycleEnv :=
  { probe := { launchError := none, navError := some "page structure changed",
               dialogMessage := none, quotaMsg := none, vendorOptions := none,
               availShotError := none, errorShotFails := false },
    sendError := none, removeError := none }

/-- Subscriber hit by the failing probe. -/
def c7wUser : Database.UserRow :=
  { chat_id := 3, beneficiary_id := "MT4420500385458",
    last_known_status := "Unknown", is_channel_member := false,
    snoozed_until := none }

/-- Two-subscriber cycle whose first probe fails but whose plumbing works. -/
def c7wPairs : List (Database.UserRow × Bot.UserCycleEnv) :=
  [(c7wUser, c7wEnv), (c7User2, c7Env2)]

/-- Witness for `c7_amended`: the probe failure of the first subscriber does
not stop the second from being probed. -/
theorem c7_witness :
    Bot.probeCount (Bot.run_monitor_job c7wPairs [c7wUser, c7User2] "t").2.1
      = c7wPairs.length ∧
    (Bot.run_monitor_job c7wPairs [c7wUser, c7User2] "t").2.2 = none :=
  c7_amended c7wPairs [c7wUser, c7User2] "t" (by decide)

/-! Claim C8. -/

/-- Cycle environment: probe finds vendors, transport works, `os.remove`
raises. -/
def c8Env : Bot.UserCycleEnv :=
  { probe := c7ProbeOk, sendError := none,
    removeError := some "PermissionError: artifact locked" }

/-- Subscriber receiving the photo notification. -/
def c8User : Database.UserRow :=
  { chat_id := 4, beneficiary_id := "MT4420500385456",
    last_known_status := "Unknown", is_channel_member := false,
    snoozed_until := none }

/-- C8 is false of `src/bot.py`: after a successful photo send the
`os.remove(screenshot)` call is not wrapped in any handler, so a deletion
failure is not logged-and-swallowed — it escapes the dispatcher iteration as
the job's exception, changing the dispatcher's outcome. -/
theorem c8_counterexample :
    c8Env.sendError = none ∧
    Bot.Event.sendPhoto 4 (Bot.format_message "Available" "MT4420500385456" "t")
        "screenshot_MT4420500385456.png"
      ∈ (Bot.dispatch_user [c8User] c8User c8Env "t").2.1 ∧
    Bot.Event.removeFile "screenshot_MT4420500385456.png"
      ∈ (Bot.dispatch_user [c8User] c8User c8Env "t").2.1 ∧
    (Bot.dispatch_user [c8User] c8User c8Env "t").2.2
      = some "PermissionError: artifact locked" := by
  decide

/-- C8 (amended): after a successful photo send the dispatcher does attempt to
delete the artifact file, immediately after the transport call; but a deletion
failure is not caught or logged — the iteration's escaping exception is
exactly `env.removeError`, so a removal failure propagates out of
`run_monitor_job`. -/
theorem c8_amended (db : List Database.UserRow) (user : Database.UserRow)
    (env : Bot.UserCycleEnv) (now current path : String)
    (hprobe : Bot.check_vendor_status env.probe user.beneficiary_id
      = .ok (current, some path))
    (hchange : current ≠ user.last_known_status)
    (hsend : env.sendError = none) :
    (Bot.dispatch_user db user env now).2.1
      = [Bot.Event.probe user.chat_id user.beneficiary_id,
         Bot.Event.storeWrite user.chat_id current,
         Bot.Event.sendPhoto user.chat_id
           (Bot.format_message current user.beneficiary_id now) path,
         Bot.Event.removeFile path] ∧
    (Bot.dispatch_user db user env now).2.2 = env.removeError := by
  cases hr : env.removeError <;>
    simp [Bot.dispatch_user, hprobe, hchange, hsend, hr]

/-- Cycle environment like `c8Env` but with a healthy `os.remove`. -/
def c8wEnv : Bot.UserCycleEnv :=
  { probe := c7ProbeOk, sendError := none, removeError := none }

/-- Witness for `c8_amended` at a concrete cycle. -/
theorem c8_witness :
    (Bot.dispatch_user [c8User] c8User c8wEnv "t").2.1
      = [Bot.Event.probe 4 "MT4420500385456",
         Bot.Event.storeWrite 4 "Available",
         Bot.Event.sendPhoto 4
           (Bot.format_message "Available" "MT4420500385456" "t")
           "screenshot_MT4420500385456.png",
         Bot.Event.removeFile "screenshot_MT4420500385456.png"] ∧
    (Bot.dispatch_user [c8User] c8User c8wEnv "t").2.2 = c8wEnv.removeError :=
  c8_amended [c8User] c8User c8wEnv "t" "Available"
    "screenshot_MT4420500385456.png" rfl (by decide) rfl

/-! Claim C9. -/

/-- C9: `/add` validates the normalised identifier before touching the store:
`"MT123"` (too short) and `"XY4420500385456"` (wrong prefix) are rejected with
the format reply, the table unchanged and no one-shot probe scheduled, for
every store state; `"MT4420500385456"` passes the format check, reaches the
store, and (here on an empty store) is inserted with the schema-default
status, the success reply, and the one-shot probe scheduled. -/
theorem c9_registration_validation (db : List Database.UserRow) (chat : Int) :
    Bot.add_beneficiary db chat ["MT123"] = (db, Bot.Reply.invalidFormat, false) ∧
    Bot.add_beneficiary db chat ["XY4420500385456"]
      = (db, Bot.Reply.invalidFormat, false) ∧
    Bot.valid_format (py_upper (py_strip "MT4420500385456")) = true ∧
    Bot.add_beneficiary [] chat ["MT4420500385456"]
      = ([Database.new_user chat "MT4420500385456"],
         Bot.Reply.success "MT4420500385456", true) := by
  refine ⟨?_, ?_, by decide, ?_⟩
  · have h : Bot.valid_format (py_upper (py_strip "MT123")) = false := by decide
    simp [Bot.add_beneficiary, h]
  · have h : Bot.valid_format (py_upper (py_strip "XY4420500385456")) = false := by
      decide
    simp [Bot.add_beneficiary, h]
  · have h : Bot.valid_format (py_upper (py_strip "MT4420500385456")) = true := by
      decide
    have h2 : py_upper (py_strip "MT4420500385456") = "MT4420500385456" := by decide
    have h3 : Bot.valid_format "MT4420500385456" = true := by decide
    simp [Bot.add_beneficiary, h, h2, h3, Database.add_or_update_user,
      Database.find_user]

/-! Claim C10. -/

/-- C10: a successful upsert for a chat id that already has a row updates only
that row's `beneficiary_id` — the whole table is the pointwise
beneficiary-only rewrite, and the chat's row keeps its `last_known_status`
(and every other column) while taking the new identifier. -/
theorem c10_reregistration_preserves_status
    (db : List Database.UserRow) (chat : Int) (bid : String)
    (r : Database.UserRow) (db' : List Database.UserRow)
    (hfind : Database.find_user db chat = some r)
    (hsucc : Database.add_or_update_user db chat bid = (db', true)) :
    db' = db.map
      (fun row => if row.chat_id = chat then { row with beneficiary_id := bid } else row) ∧
    Database.find_user db' chat = some { r with beneficiary_id := bid } := by
  have hdb : db' = db.map
      (fun row => if row.chat_id = chat then { row with beneficiary_id := bid } else row) := by
    unfold Database.add_or_update_user at hsucc
    rw [hfind] at hsucc
    cases hc : db.any (fun x => x.beneficiary_id == bid && x.chat_id != chat) with
    | true => simp [hc] at hsucc
    | false =>
      simp [hc] at hsucc
      exact hsucc.symm
  refine ⟨hdb, ?_⟩
  rw [hdb, find_user_map_update_bid, hfind]
  rfl

/-- Store with one subscriber whose status has already been resolved. -/
def c10Db : List Database.UserRow :=
  [{ chat_id := 7, beneficiary_id := "MT4420500385456",
     last_known_status := "Available", is_channel_member := false,
     snoozed_until := none }]

/-- Witness for `c10_reregistration_preserves_status`: re-registering chat 7
with a new identifier keeps its `"Available"` status. -/
theorem c10_witness :
    ([{ chat_id := 7, beneficiary_id := "MT4420500385999",
        last_known_status := "Available", is_channel_member := false,
        snoozed_until := none }] : List Database.UserRow)
      = c10Db.map
          (fun row => if row.chat_id = 7 then { row with beneficiary_id := "MT4420500385999" } else row) ∧
    Database.find_user
        [{ chat_id := 7, beneficiary_id := "MT4420500385999",
           last_known_status := "Available", is_channel_member := false,
           snoozed_until := none }] 7
      = some { chat_id := 7, beneficiary_id := "MT4420500385999",
               last_known_status := "Available", is_channel_member := false,
               snoozed_until := none } :=
  c10_reregistration_preserves_status c10Db 7 "MT4420500385999"
    { chat_id := 7, beneficiary_id := "MT4420500385456",
      last_known_status := "Available", is_channel_member := false,
      snoozed_until := none }
    [{ chat_id := 7, beneficiary_id := "MT4420500385999",
       last_known_status := "Available", is_channel_member := false,
       snoozed_until := none }]
    rfl (by decide)
